import Mathlib

/-!
Verification of the Allwinner A10 PLL2 audio clock driver
(`drivers/clk/sunxi/clk-a10-pll2.c`).

The driver exposes four views (1x, 2x, 4x, 8x) over a single 32-bit
control register.  Rates are `unsigned long` values; following the
interface description they are modelled as natural numbers reduced
modulo `2 ^ 64` wherever the C arithmetic can wrap.  The register is
threaded explicitly: `readl` becomes a `reg` argument and `writel`
becomes the register component of the returned pair.  The C error code
`-EINVAL` is the integer `-22`.
-/

/-- Size of the `unsigned long` rate type (64-bit, per the interface
which types rates as u64); products are reduced modulo this. -/
def ULONG_SIZE : Nat := 2 ^ 64

/-- All bits of a `u32`; `~m` on a 32-bit value is `U32_MASK ^^^ m`. -/
def U32_MASK : Nat := 0xFFFFFFFF

/-- Bit position of the gate/enable bit (`SUN4I_PLL2_ENABLE`). -/
def SUN4I_PLL2_ENABLE : Nat := 31

/-- Bit position of the post-divider S field (`SUN4I_PLL2_POST_DIV`). -/
def SUN4I_PLL2_POST_DIV : Nat := 26

/-- Width mask of the post-divider S field. -/
def SUN4I_PLL2_POST_DIV_MASK : Nat := 0xF

/-- Bit position of the multiplier N field (`SUN4I_PLL2_N`). -/
def SUN4I_PLL2_N : Nat := 8

/-- Width mask of the multiplier N field. -/
def SUN4I_PLL2_N_MASK : Nat := 0x7F

/-- Bit position of the pre-divider P field (`SUN4I_PLL2_PRE_DIV`). -/
def SUN4I_PLL2_PRE_DIV : Nat := 0

/-- Width mask of the pre-divider P field. -/
def SUN4I_PLL2_PRE_DIV_MASK : Nat := 0x1F

/-- Raw extraction of the N field: `(val >> SUN4I_PLL2_N) & SUN4I_PLL2_N_MASK`. -/
def pll2_field_n (val : Nat) : Nat :=
  (val >>> SUN4I_PLL2_N) &&& SUN4I_PLL2_N_MASK

/-- Raw extraction of the pre-divider P field. -/
def pll2_field_prediv (val : Nat) : Nat :=
  (val >>> SUN4I_PLL2_PRE_DIV) &&& SUN4I_PLL2_PRE_DIV_MASK

/-- Raw extraction of the post-divider S field. -/
def pll2_field_postdiv (val : Nat) : Nat :=
  (val >>> SUN4I_PLL2_POST_DIV) &&& SUN4I_PLL2_POST_DIV_MASK

/-- Decoded N with the zero-means-one substitution
(`if (n == 0) n = 1;` in every recalc function). -/
def pll2_decode_n (val : Nat) : Nat :=
  if pll2_field_n val = 0 then 1 else pll2_field_n val

/-- Decoded P with the zero-means-one substitution. -/
def pll2_decode_prediv (val : Nat) : Nat :=
  if pll2_field_prediv val = 0 then 1 else pll2_field_prediv val

/-- Decoded S with the zero-means-one substitution. -/
def pll2_decode_postdiv (val : Nat) : Nat :=
  if pll2_field_postdiv val = 0 then 1 else pll2_field_postdiv val

/-- `sun4i_pll2_1x_recalc_rate`: read the register, extract N/P/S,
substitute 1 for 0 in each field, return
`((parent_rate * n) / prediv) / postdiv` in `unsigned long` arithmetic. -/
def sun4i_pll2_1x_recalc_rate (parent_rate : Nat) (reg : Nat) : Nat :=
  let val := reg
  let n0 := (val >>> SUN4I_PLL2_N) &&& SUN4I_PLL2_N_MASK
  let prediv0 := (val >>> SUN4I_PLL2_PRE_DIV) &&& SUN4I_PLL2_PRE_DIV_MASK
  let postdiv0 := (val >>> SUN4I_PLL2_POST_DIV) &&& SUN4I_PLL2_POST_DIV_MASK
  let n := if n0 = 0 then 1 else n0
  let prediv := if prediv0 = 0 then 1 else prediv0
  let postdiv := if postdiv0 = 0 then 1 else postdiv0
  ((parent_rate * n) % ULONG_SIZE / prediv) / postdiv

/-- `sun4i_pll2_8x_recalc_rate`: no post-divider, doubled output:
`(parent_rate * 2 * n) / prediv` in `unsigned long` arithmetic. -/
def sun4i_pll2_8x_recalc_rate (parent_rate : Nat) (reg : Nat) : Nat :=
  let val := reg
  let n0 := (val >>> SUN4I_PLL2_N) &&& SUN4I_PLL2_N_MASK
  let prediv0 := (val >>> SUN4I_PLL2_PRE_DIV) &&& SUN4I_PLL2_PRE_DIV_MASK
  let n := if n0 = 0 then 1 else n0
  let prediv := if prediv0 = 0 then 1 else prediv0
  (parent_rate * 2 * n) % ULONG_SIZE / prediv

/-- `sun4i_pll2_4x_recalc_rate`: delegates to 8x at half the parent rate. -/
def sun4i_pll2_4x_recalc_rate (parent_rate : Nat) (reg : Nat) : Nat :=
  sun4i_pll2_8x_recalc_rate (parent_rate / 2) reg

/-- `sun4i_pll2_2x_recalc_rate`: delegates to 8x at a quarter of the parent rate. -/
def sun4i_pll2_2x_recalc_rate (parent_rate : Nat) (reg : Nat) : Nat :=
  sun4i_pll2_8x_recalc_rate (parent_rate / 4) reg

/-- `sun4i_pll2_1x_round_rate`: snap to one of the two audio checkpoints,
`-22` (`-EINVAL`) below the lower one. -/
def sun4i_pll2_1x_round_rate (rate : Nat) : Int :=
  if rate < 22579200 then -22
  else if 22579200 ≤ rate ∧ rate < 24576000 then 22579200
  else 24576000

/-- `sun4i_pll2_8x_round_rate`: stores `(rate * 4) / 2` into
`*parent_rate` (first component) and returns `rate` (second component),
in `unsigned long` arithmetic. -/
def sun4i_pll2_8x_round_rate (rate : Nat) : Nat × Nat :=
  (rate * 4 % ULONG_SIZE / 2, rate)

/-- `sun4i_pll2_4x_round_rate`: delegates to 8x at `rate * 2`. -/
def sun4i_pll2_4x_round_rate (rate : Nat) : Nat × Nat :=
  sun4i_pll2_8x_round_rate (rate * 2 % ULONG_SIZE)

/-- `sun4i_pll2_2x_round_rate`: delegates to 8x at `rate * 4`. -/
def sun4i_pll2_2x_round_rate (rate : Nat) : Nat × Nat :=
  sun4i_pll2_8x_round_rate (rate * 4 % ULONG_SIZE)

/-- `sun4i_pll2_set_rate`: read the register, clear the N, P and S
fields, set P=21, S=4, pick N by exact match on the requested rate and
write the result back; on no match return `-EINVAL` without writing.
Returns (C return code, register contents after the call). -/
def sun4i_pll2_set_rate (rate : Nat) (parent_rate : Nat) (reg : Nat) : Int × Nat :=
  let val := reg
  let val := val &&& (U32_MASK ^^^ (SUN4I_PLL2_N_MASK <<< SUN4I_PLL2_N))
  let val := val &&& (U32_MASK ^^^ (SUN4I_PLL2_PRE_DIV_MASK <<< SUN4I_PLL2_PRE_DIV))
  let val := val &&& (U32_MASK ^^^ (SUN4I_PLL2_POST_DIV_MASK <<< SUN4I_PLL2_POST_DIV))
  let val := val ||| ((21 <<< SUN4I_PLL2_PRE_DIV) ||| (4 <<< SUN4I_PLL2_POST_DIV))
  if rate = 22579200 then (0, val ||| (79 <<< SUN4I_PLL2_N))
  else if rate = 24576000 then (0, val ||| (86 <<< SUN4I_PLL2_N))
  else (-22, reg)

/-- Union of the three field masks shifted into place. -/
def PLL2_FIELD_BITS : Nat :=
  (SUN4I_PLL2_N_MASK <<< SUN4I_PLL2_N) |||
    ((SUN4I_PLL2_PRE_DIV_MASK <<< SUN4I_PLL2_PRE_DIV) |||
      (SUN4I_PLL2_POST_DIV_MASK <<< SUN4I_PLL2_POST_DIV))

/-- The 32-bit positions outside the N, P and S fields
(enable bit and reserved bits). -/
def PLL2_NONFIELD_MASK : Nat := U32_MASK ^^^ PLL2_FIELD_BITS

/-- The register value written by a successful `sun4i_pll2_set_rate`
with multiplier field `sN`; literally the let-chain of the C body. -/
def pll2_commitval (reg sN : Nat) : Nat :=
  (((reg &&& (U32_MASK ^^^ (SUN4I_PLL2_N_MASK <<< SUN4I_PLL2_N))
      &&& (U32_MASK ^^^ (SUN4I_PLL2_PRE_DIV_MASK <<< SUN4I_PLL2_PRE_DIV)))
      &&& (U32_MASK ^^^ (SUN4I_PLL2_POST_DIV_MASK <<< SUN4I_PLL2_POST_DIV)))
    ||| ((21 <<< SUN4I_PLL2_PRE_DIV) ||| (4 <<< SUN4I_PLL2_POST_DIV)))
    ||| (sN <<< SUN4I_PLL2_N)

/-- The conjunction of the three clear masks of `sun4i_pll2_set_rate`. -/
def PLL2_CLEAR_MASK : Nat :=
  (U32_MASK ^^^ (SUN4I_PLL2_N_MASK <<< SUN4I_PLL2_N)) &&&
    ((U32_MASK ^^^ (SUN4I_PLL2_PRE_DIV_MASK <<< SUN4I_PLL2_PRE_DIV)) &&&
      (U32_MASK ^^^ (SUN4I_PLL2_POST_DIV_MASK <<< SUN4I_PLL2_POST_DIV)))

/-- State-passing wrapper: `sun4i_pll2_1x_recalc_rate` only reads the
register (a single `readl`, no `writel`), so the register component is
returned unchanged. -/
def sun4i_pll2_1x_recalc_rate_st (parent_rate reg : Nat) : Nat × Nat :=
  (sun4i_pll2_1x_recalc_rate parent_rate reg, reg)

/-- State-passing wrapper for `sun4i_pll2_2x_recalc_rate` (read-only). -/
def sun4i_pll2_2x_recalc_rate_st (parent_rate reg : Nat) : Nat × Nat :=
  (sun4i_pll2_2x_recalc_rate parent_rate reg, reg)

/-- State-passing wrapper for `sun4i_pll2_4x_recalc_rate` (read-only). -/
def sun4i_pll2_4x_recalc_rate_st (parent_rate reg : Nat) : Nat × Nat :=
  (sun4i_pll2_4x_recalc_rate parent_rate reg, reg)

/-- State-passing wrapper for `sun4i_pll2_8x_recalc_rate` (read-only). -/
def sun4i_pll2_8x_recalc_rate_st (parent_rate reg : Nat) : Nat × Nat :=
  (sun4i_pll2_8x_recalc_rate parent_rate reg, reg)

/-- State-passing wrapper for `sun4i_pll2_1x_round_rate`, which does not
access the register at all. -/
def sun4i_pll2_1x_round_rate_st (rate reg : Nat) : Int × Nat :=
  (sun4i_pll2_1x_round_rate rate, reg)

/-- State-passing wrapper for `sun4i_pll2_2x_round_rate` (no register access). -/
def sun4i_pll2_2x_round_rate_st (rate reg : Nat) : (Nat × Nat) × Nat :=
  (sun4i_pll2_2x_round_rate rate, reg)

/-- State-passing wrapper for `sun4i_pll2_4x_round_rate` (no register access). -/
def sun4i_pll2_4x_round_rate_st (rate reg : Nat) : (Nat × Nat) × Nat :=
  (sun4i_pll2_4x_round_rate rate, reg)

/-- State-passing wrapper for `sun4i_pll2_8x_round_rate` (no register access). -/
def sun4i_pll2_8x_round_rate_st (rate reg : Nat) : (Nat × Nat) × Nat :=
  (sun4i_pll2_8x_round_rate rate, reg)

/-! ## Helper lemmas -/

theorem ifzero_eq_max (x : Nat) : (if x = 0 then 1 else x) = max x 1 := by
  cases x with
  | zero => simp
  | succ n => simp [Nat.max_eq_left (Nat.succ_le_succ (Nat.zero_le n))]

theorem pll2_decode_n_pos (v : Nat) : 0 < pll2_decode_n v := by
  unfold pll2_decode_n; split <;> omega

theorem pll2_decode_prediv_pos (v : Nat) : 0 < pll2_decode_prediv v := by
  unfold pll2_decode_prediv; split <;> omega

theorem pll2_decode_postdiv_pos (v : Nat) : 0 < pll2_decode_postdiv v := by
  unfold pll2_decode_postdiv; split <;> omega

theorem recalc_1x_eq (p v : Nat) :
    sun4i_pll2_1x_recalc_rate p v =
      ((p * pll2_decode_n v) % ULONG_SIZE / pll2_decode_prediv v) /
        pll2_decode_postdiv v := rfl

theorem recalc_8x_eq (p v : Nat) :
    sun4i_pll2_8x_recalc_rate p v =
      (p * 2 * pll2_decode_n v) % ULONG_SIZE / pll2_decode_prediv v := rfl

theorem land_assoc3 (x a b c : Nat) :
    ((x &&& a) &&& b) &&& c = x &&& (a &&& (b &&& c)) := by
  apply Nat.eq_of_testBit_eq
  intro i
  simp only [Nat.testBit_and]
  cases x.testBit i <;> cases a.testBit i <;> cases b.testBit i <;>
    cases c.testBit i <;> rfl

theorem lor_land_distrib (a b c : Nat) :
    (a ||| b) &&& c = (a &&& c) ||| (b &&& c) := by
  apply Nat.eq_of_testBit_eq
  intro i
  simp only [Nat.testBit_and, Nat.testBit_or]
  cases a.testBit i <;> cases b.testBit i <;> cases c.testBit i <;> rfl

theorem land_lor_frame (x m s c : Nat) (hm : c &&& m = c) (hs : s &&& c = 0) :
    ((x &&& m) ||| s) &&& c = x &&& c := by
  apply Nat.eq_of_testBit_eq
  intro i
  have hm' := congrArg (fun t => Nat.testBit t i) hm
  have hs' := congrArg (fun t => Nat.testBit t i) hs
  simp only [Nat.testBit_and, Nat.zero_testBit] at hm' hs'
  simp only [Nat.testBit_and, Nat.testBit_or]
  cases hc : c.testBit i
  · simp
  · rw [hc] at hm' hs'
    simp only [Bool.true_and, Bool.and_true] at hm' hs'
    rw [hm', hs']
    cases x.testBit i <;> rfl

theorem extract_lor (y z k m : Nat) :
    ((y ||| z) >>> k) &&& m = ((y >>> k) &&& m) ||| ((z >>> k) &&& m) := by
  apply Nat.eq_of_testBit_eq
  intro i
  simp only [Nat.testBit_and, Nat.testBit_or, Nat.testBit_shiftRight]
  cases y.testBit (k + i) <;> cases z.testBit (k + i) <;> cases m.testBit i <;> rfl

theorem extract_land_zero (x M k m : Nat) (h : (M >>> k) &&& m = 0) :
    ((x &&& M) >>> k) &&& m = 0 := by
  apply Nat.eq_of_testBit_eq
  intro i
  have h' := congrArg (fun t => Nat.testBit t i) h
  simp only [Nat.testBit_and, Nat.testBit_shiftRight, Nat.zero_testBit] at h' ⊢
  cases hM : M.testBit (k + i) <;> cases hm2 : m.testBit i <;>
    simp_all

theorem shiftLeft_extract (s k : Nat) : (s <<< k) >>> k = s := by
  rw [Nat.shiftLeft_eq, Nat.shiftRight_eq_div_pow,
    Nat.mul_div_cancel s (Nat.two_pow_pos k)]

theorem pll2_commitval_eq (reg sN : Nat) :
    pll2_commitval reg sN =
      ((reg &&& PLL2_CLEAR_MASK) |||
        (((21 <<< SUN4I_PLL2_PRE_DIV) ||| (4 <<< SUN4I_PLL2_POST_DIV)) |||
          (sN <<< SUN4I_PLL2_N))) := by
  unfold pll2_commitval PLL2_CLEAR_MASK
  rw [land_assoc3, Nat.or_assoc]

theorem set_rate_eq (rate parent reg : Nat) :
    sun4i_pll2_set_rate rate parent reg =
      if rate = 22579200 then (0, pll2_commitval reg 79)
      else if rate = 24576000 then (0, pll2_commitval reg 86)
      else (-22, reg) := rfl

theorem pll2_commitval_field_n (reg sN : Nat)
    (hs : sN &&& SUN4I_PLL2_N_MASK = sN) :
    pll2_field_n (pll2_commitval reg sN) = sN := by
  unfold pll2_field_n
  rw [pll2_commitval_eq, extract_lor, extract_lor,
    extract_land_zero reg PLL2_CLEAR_MASK SUN4I_PLL2_N SUN4I_PLL2_N_MASK
      (by decide),
    show ((((21 <<< SUN4I_PLL2_PRE_DIV) ||| (4 <<< SUN4I_PLL2_POST_DIV)) >>>
      SUN4I_PLL2_N) &&& SUN4I_PLL2_N_MASK) = 0 from by decide,
    shiftLeft_extract, hs, Nat.zero_or, Nat.zero_or]

theorem pll2_commitval_field_prediv (reg sN : Nat)
    (hs : ((sN <<< SUN4I_PLL2_N) >>> SUN4I_PLL2_PRE_DIV) &&&
      SUN4I_PLL2_PRE_DIV_MASK = 0) :
    pll2_field_prediv (pll2_commitval reg sN) = 21 := by
  unfold pll2_field_prediv
  rw [pll2_commitval_eq, extract_lor, extract_lor,
    extract_land_zero reg PLL2_CLEAR_MASK SUN4I_PLL2_PRE_DIV
      SUN4I_PLL2_PRE_DIV_MASK (by decide), hs]
  decide

theorem pll2_commitval_field_postdiv (reg sN : Nat)
    (hs : ((sN <<< SUN4I_PLL2_N) >>> SUN4I_PLL2_POST_DIV) &&&
      SUN4I_PLL2_POST_DIV_MASK = 0) :
    pll2_field_postdiv (pll2_commitval reg sN) = 4 := by
  unfold pll2_field_postdiv
  rw [pll2_commitval_eq, extract_lor, extract_lor,
    extract_land_zero reg PLL2_CLEAR_MASK SUN4I_PLL2_POST_DIV
      SUN4I_PLL2_POST_DIV_MASK (by decide), hs]
  decide

theorem pll2_commitval_frame (reg sN : Nat)
    (hs : (sN <<< SUN4I_PLL2_N) &&& PLL2_NONFIELD_MASK = 0) :
    pll2_commitval reg sN &&& PLL2_NONFIELD_MASK =
      reg &&& PLL2_NONFIELD_MASK := by
  rw [pll2_commitval_eq]
  apply land_lor_frame
  · decide
  · rw [lor_land_distrib, hs,
      show ((21 <<< SUN4I_PLL2_PRE_DIV) ||| (4 <<< SUN4I_PLL2_POST_DIV)) &&&
        PLL2_NONFIELD_MASK = 0 from by decide]
    rfl


/-! ## Claims -/

/-- Claim C1: for every requested rate and every prior register value,
View 1x `set_rate` commits fixed P=21 and S=4, with N selected by exact
match: 22,579,200 commits N=79, 24,576,000 commits N=86, and any other
requested value returns the error `-EINVAL` without writing the
register. -/
theorem c1_view1x_set_rate_exact_match (rate parent reg : Nat) :
    (rate = 22579200 →
      (sun4i_pll2_set_rate rate parent reg).1 = 0 ∧
      pll2_decode_n (sun4i_pll2_set_rate rate parent reg).2 = 79 ∧
      pll2_decode_prediv (sun4i_pll2_set_rate rate parent reg).2 = 21 ∧
      pll2_decode_postdiv (sun4i_pll2_set_rate rate parent reg).2 = 4) ∧
    (rate = 24576000 →
      (sun4i_pll2_set_rate rate parent reg).1 = 0 ∧
      pll2_decode_n (sun4i_pll2_set_rate rate parent reg).2 = 86 ∧
      pll2_decode_prediv (sun4i_pll2_set_rate rate parent reg).2 = 21 ∧
      pll2_decode_postdiv (sun4i_pll2_set_rate rate parent reg).2 = 4) ∧
    (rate ≠ 22579200 → rate ≠ 24576000 →
      sun4i_pll2_set_rate rate parent reg = (-22, reg)) := by
  refine ⟨fun h => ?_, fun h => ?_, fun h1 h2 => ?_⟩
  · subst h
    have e : sun4i_pll2_set_rate 22579200 parent reg =
        (0, pll2_commitval reg 79) := rfl
    rw [e]
    refine ⟨rfl, ?_, ?_, ?_⟩
    · simp only [pll2_decode_n]
      rw [pll2_commitval_field_n reg 79 (by decide)]
      decide
    · simp only [pll2_decode_prediv]
      rw [pll2_commitval_field_prediv reg 79 (by decide)]
      decide
    · simp only [pll2_decode_postdiv]
      rw [pll2_commitval_field_postdiv reg 79 (by decide)]
      decide
  · subst h
    have e : sun4i_pll2_set_rate 24576000 parent reg =
        (0, pll2_commitval reg 86) := rfl
    rw [e]
    refine ⟨rfl, ?_, ?_, ?_⟩
    · simp only [pll2_decode_n]
      rw [pll2_commitval_field_n reg 86 (by decide)]
      decide
    · simp only [pll2_decode_prediv]
      rw [pll2_commitval_field_prediv reg 86 (by decide)]
      decide
    · simp only [pll2_decode_postdiv]
      rw [pll2_commitval_field_postdiv reg 86 (by decide)]
      decide
  · rw [set_rate_eq, if_neg h1, if_neg h2]

/-- Witness for C1 at concrete inputs. -/
theorem c1_witness :
    (sun4i_pll2_set_rate 22579200 0 4294967295).1 = 0 ∧
    pll2_decode_n (sun4i_pll2_set_rate 22579200 0 4294967295).2 = 79 ∧
    pll2_decode_prediv (sun4i_pll2_set_rate 22579200 0 4294967295).2 = 21 ∧
    pll2_decode_postdiv (sun4i_pll2_set_rate 22579200 0 4294967295).2 = 4 ∧
    pll2_decode_n (sun4i_pll2_set_rate 24576000 0 7).2 = 86 ∧
    sun4i_pll2_set_rate 1000 0 7 = (-22, 7) := by
  refine ⟨?_, ?_, ?_, ?_, ?_, ?_⟩
  · exact ((c1_view1x_set_rate_exact_match 22579200 0 4294967295).1 rfl).1
  · exact ((c1_view1x_set_rate_exact_match 22579200 0 4294967295).1 rfl).2.1
  · exact ((c1_view1x_set_rate_exact_match 22579200 0 4294967295).1 rfl).2.2.1
  · exact ((c1_view1x_set_rate_exact_match 22579200 0 4294967295).1 rfl).2.2.2
  · exact ((c1_view1x_set_rate_exact_match 24576000 0 7).2.1 rfl).2.1
  · exact (c1_view1x_set_rate_exact_match 1000 0 7).2.2 (by decide) (by decide)

/-- Claim C2: View 1x `round_rate` follows the three-way snapping
policy: below 22,579,200 it returns `-EINVAL`; between 22,579,200 and
24,575,999 it returns 22,579,200; from 24,576,000 on it returns
24,576,000 (arbitrarily large requests are snapped down, never
rejected). -/
theorem c2_view1x_round_rate_policy (x : Nat) :
    (x ≤ 22579199 → sun4i_pll2_1x_round_rate x = -22) ∧
    (22579200 ≤ x → x ≤ 24575999 →
      sun4i_pll2_1x_round_rate x = 22579200) ∧
    (24576000 ≤ x → sun4i_pll2_1x_round_rate x = 24576000) := by
  unfold sun4i_pll2_1x_round_rate
  refine ⟨fun h => ?_, fun h1 h2 => ?_, fun h => ?_⟩
  · rw [if_pos (by omega)]
  · rw [if_neg (by omega), if_pos (by omega)]
  · rw [if_neg (by omega), if_neg (by omega)]

/-- Witness for C2 in each of the three ranges. -/
theorem c2_witness :
    sun4i_pll2_1x_round_rate 5 = -22 ∧
    sun4i_pll2_1x_round_rate 23000000 = 22579200 ∧
    sun4i_pll2_1x_round_rate 99999999 = 24576000 :=
  ⟨(c2_view1x_round_rate_policy 5).1 (by norm_num),
   (c2_view1x_round_rate_policy 23000000).2.1 (by norm_num) (by norm_num),
   (c2_view1x_round_rate_policy 99999999).2.2 (by norm_num)⟩

/-- Claim C3: whenever View 1x `set_rate` fails (the requested rate
matches neither checkpoint) it returns `-EINVAL` and the register is
left byte-for-byte unchanged: no write happens on the error path. -/
theorem c3_error_path_no_write (rate parent reg : Nat)
    (h1 : rate ≠ 22579200) (h2 : rate ≠ 24576000) :
    (sun4i_pll2_set_rate rate parent reg).1 = -22 ∧
    (sun4i_pll2_set_rate rate parent reg).2 = reg := by
  rw [set_rate_eq, if_neg h1, if_neg h2]
  exact ⟨rfl, rfl⟩

/-- Witness for C3 at a concrete unsupported rate. -/
theorem c3_witness :
    (sun4i_pll2_set_rate 23000000 24576000 3735928559).1 = -22 ∧
    (sun4i_pll2_set_rate 23000000 24576000 3735928559).2 = 3735928559 :=
  c3_error_path_no_write 23000000 24576000 3735928559 (by decide) (by decide)

/-- Claim C4: a successful View 1x `set_rate` rewrites only the N
(bits 8-14), P (bits 0-4) and S (bits 26-29) fields; every bit outside
those fields — in particular the enable bit 31 — is preserved
bit-for-bit in the written value. -/
theorem c4_set_rate_preserves_nonfield_bits (rate parent reg : Nat)
    (h : (sun4i_pll2_set_rate rate parent reg).1 = 0) :
    (sun4i_pll2_set_rate rate parent reg).2 &&& PLL2_NONFIELD_MASK =
      reg &&& PLL2_NONFIELD_MASK ∧
    Nat.testBit (sun4i_pll2_set_rate rate parent reg).2 SUN4I_PLL2_ENABLE =
      Nat.testBit reg SUN4I_PLL2_ENABLE := by
  by_cases h1 : rate = 22579200
  · subst h1
    have e : sun4i_pll2_set_rate 22579200 parent reg =
        (0, pll2_commitval reg 79) := rfl
    rw [e]
    have hf := pll2_commitval_frame reg 79 (by decide)
    refine ⟨hf, ?_⟩
    have hb := congrArg (fun t => Nat.testBit t SUN4I_PLL2_ENABLE) hf
    simp only [Nat.testBit_and] at hb
    rw [show Nat.testBit PLL2_NONFIELD_MASK SUN4I_PLL2_ENABLE = true from
      by decide, Bool.and_true, Bool.and_true] at hb
    exact hb
  · by_cases h2 : rate = 24576000
    · subst h2
      have e : sun4i_pll2_set_rate 24576000 parent reg =
          (0, pll2_commitval reg 86) := rfl
      rw [e]
      have hf := pll2_commitval_frame reg 86 (by decide)
      refine ⟨hf, ?_⟩
      have hb := congrArg (fun t => Nat.testBit t SUN4I_PLL2_ENABLE) hf
      simp only [Nat.testBit_and] at hb
      rw [show Nat.testBit PLL2_NONFIELD_MASK SUN4I_PLL2_ENABLE = true from
        by decide, Bool.and_true, Bool.and_true] at hb
      exact hb
    · exfalso
      have e : sun4i_pll2_set_rate rate parent reg = (-22, reg) := by
        rw [set_rate_eq, if_neg h1, if_neg h2]
      rw [e] at h
      norm_num at h

/-- Witness for C4 with the enable bit set in the prior value. -/
theorem c4_witness :
    (sun4i_pll2_set_rate 22579200 0 2147483648).2 &&& PLL2_NONFIELD_MASK =
      2147483648 &&& PLL2_NONFIELD_MASK ∧
    Nat.testBit (sun4i_pll2_set_rate 22579200 0 2147483648).2
      SUN4I_PLL2_ENABLE = Nat.testBit 2147483648 SUN4I_PLL2_ENABLE := by
  refine ⟨?_, ?_⟩
  · exact (c4_set_rate_preserves_nonfield_bits 22579200 0 2147483648
      (by decide)).1
  · exact (c4_set_rate_preserves_nonfield_bits 22579200 0 2147483648
      (by decide)).2

/-- Claim C5: zero-means-one decoding — each of the N, P, S fields is
substituted independently by 1 when its stored bits are 0 (the decoded
value is `max field 1`), this substitution is what both recalc
functions compute with, and every divisor used is positive, so
recalculation never divides by zero. -/
theorem c5_zero_means_one (v p : Nat) :
    pll2_decode_n v = max (pll2_field_n v) 1 ∧
    pll2_decode_prediv v = max (pll2_field_prediv v) 1 ∧
    pll2_decode_postdiv v = max (pll2_field_postdiv v) 1 ∧
    sun4i_pll2_1x_recalc_rate p v =
      ((p * max (pll2_field_n v) 1) % ULONG_SIZE /
        max (pll2_field_prediv v) 1) / max (pll2_field_postdiv v) 1 ∧
    sun4i_pll2_8x_recalc_rate p v =
      (p * 2 * max (pll2_field_n v) 1) % ULONG_SIZE /
        max (pll2_field_prediv v) 1 ∧
    0 < max (pll2_field_prediv v) 1 ∧ 0 < max (pll2_field_postdiv v) 1 := by
  refine ⟨?_, ?_, ?_, ?_, ?_, ?_, ?_⟩
  · simp only [pll2_decode_n, ifzero_eq_max]
  · simp only [pll2_decode_prediv, ifzero_eq_max]
  · simp only [pll2_decode_postdiv, ifzero_eq_max]
  · rw [recalc_1x_eq]
    simp only [pll2_decode_n, pll2_decode_prediv, pll2_decode_postdiv,
      ifzero_eq_max]
  · rw [recalc_8x_eq]
    simp only [pll2_decode_n, pll2_decode_prediv, ifzero_eq_max]
  · exact Nat.lt_of_lt_of_le Nat.one_pos (Nat.le_max_right _ _)
  · exact Nat.lt_of_lt_of_le Nat.one_pos (Nat.le_max_right _ _)

/-- Claim C6: View 1x `recalc_rate` returns
`((parent_rate * N) / P) / S` with truncating integer division in the
`unsigned long` rate type, where N, P, S are the decoded fields after
zero-means-one substitution, hence all at least 1; when
`parent_rate * N` fits the rate type this is the exact integer
formula. -/
theorem c6_view1x_recalc_formula (p v : Nat) :
    sun4i_pll2_1x_recalc_rate p v =
      ((p * pll2_decode_n v) % ULONG_SIZE / pll2_decode_prediv v) /
        pll2_decode_postdiv v ∧
    1 ≤ pll2_decode_n v ∧ 1 ≤ pll2_decode_prediv v ∧
    1 ≤ pll2_decode_postdiv v ∧
    (p * pll2_decode_n v < ULONG_SIZE →
      sun4i_pll2_1x_recalc_rate p v =
        p * pll2_decode_n v / pll2_decode_prediv v / pll2_decode_postdiv v) := by
  refine ⟨recalc_1x_eq p v, pll2_decode_n_pos v, pll2_decode_prediv_pos v,
    pll2_decode_postdiv_pos v, fun h => ?_⟩
  rw [recalc_1x_eq, Nat.mod_eq_of_lt h]

/-- Witness for C6 at a concrete non-overflowing input. -/
theorem c6_witness :
    100 * pll2_decode_n 0 < ULONG_SIZE ∧
    sun4i_pll2_1x_recalc_rate 100 0 =
      100 * pll2_decode_n 0 / pll2_decode_prediv 0 / pll2_decode_postdiv 0 :=
  ⟨by decide, (c6_view1x_recalc_formula 100 0).2.2.2.2 (by decide)⟩

/-- Counterexample to C7 as stated: at parent_rate 1 and register 0,
View 8x recalculates 2, but View 2x and View 4x both recalculate 0
(their pre-divided parent truncates to 0), so the exact one-quarter and
one-half relations fail. -/
theorem c7_counterexample :
    sun4i_pll2_8x_recalc_rate 1 0 = 2 ∧
    4 * sun4i_pll2_2x_recalc_rate 1 0 ≠ sun4i_pll2_8x_recalc_rate 1 0 ∧
    2 * sun4i_pll2_4x_recalc_rate 1 0 ≠ sun4i_pll2_8x_recalc_rate 1 0 ∧
    sun4i_pll2_4x_recalc_rate 1 0 ≠ sun4i_pll2_8x_recalc_rate 1 0 / 2 := by
  decide

/-- Claim C7 amended: View 2x recalculates View 8x's rate at
parent_rate/4 and View 4x at parent_rate/2; the exact one-quarter /
one-half ratios hold whenever parent_rate is a multiple of 4, the
pre-divider division is exact, and the product does not overflow. -/
theorem c7_view_ratio_amended (p v : Nat) (h4 : 4 ∣ p)
    (hd : pll2_decode_prediv v ∣ 2 * pll2_decode_n v * (p / 4))
    (hov : 2 * pll2_decode_n v * p < ULONG_SIZE) :
    sun4i_pll2_8x_recalc_rate p v = 4 * sun4i_pll2_2x_recalc_rate p v ∧
    sun4i_pll2_8x_recalc_rate p v = 2 * sun4i_pll2_4x_recalc_rate p v := by
  obtain ⟨q, rfl⟩ := h4
  have hd0 : 0 < pll2_decode_prediv v := pll2_decode_prediv_pos v
  have hq4 : 4 * q / 4 = q := by omega
  have hq2 : 4 * q / 2 = 2 * q := by omega
  rw [hq4] at hd
  obtain ⟨t, ht⟩ := hd
  have hrw : 2 * pll2_decode_n v * (4 * q) =
      4 * (pll2_decode_prediv v * t) := by rw [← ht]; ring
  rw [hrw] at hov
  unfold sun4i_pll2_2x_recalc_rate sun4i_pll2_4x_recalc_rate
  rw [hq4, hq2, recalc_8x_eq, recalc_8x_eq, recalc_8x_eq]
  have e1 : 4 * q * 2 * pll2_decode_n v =
      4 * (pll2_decode_prediv v * t) := by rw [← ht]; ring
  have e2 : q * 2 * pll2_decode_n v = pll2_decode_prediv v * t := by
    rw [← ht]; ring
  have e3 : 2 * q * 2 * pll2_decode_n v =
      2 * (pll2_decode_prediv v * t) := by rw [← ht]; ring
  rw [e1, e2, e3]
  have l1 : pll2_decode_prediv v * t < ULONG_SIZE :=
    Nat.lt_of_le_of_lt (Nat.le_mul_of_pos_left _ (by norm_num)) hov
  have l2 : 2 * (pll2_decode_prediv v * t) < ULONG_SIZE :=
    Nat.lt_of_le_of_lt (Nat.mul_le_mul_right _ (by norm_num : 2 ≤ 4)) hov
  rw [Nat.mod_eq_of_lt hov, Nat.mod_eq_of_lt l1, Nat.mod_eq_of_lt l2]
  constructor
  · rw [show 4 * (pll2_decode_prediv v * t) =
        pll2_decode_prediv v * (4 * t) from by ring,
      Nat.mul_div_cancel_left (4 * t) hd0, Nat.mul_div_cancel_left t hd0]
  · rw [show 4 * (pll2_decode_prediv v * t) =
        pll2_decode_prediv v * (4 * t) from by ring,
      show 2 * (pll2_decode_prediv v * t) =
        pll2_decode_prediv v * (2 * t) from by ring,
      Nat.mul_div_cancel_left (4 * t) hd0,
      Nat.mul_div_cancel_left (2 * t) hd0]
    ring

/-- Witness for the amended C7 at parent_rate 4 and register 0. -/
theorem c7_witness :
    sun4i_pll2_8x_recalc_rate 4 0 = 4 * sun4i_pll2_2x_recalc_rate 4 0 ∧
    sun4i_pll2_8x_recalc_rate 4 0 = 2 * sun4i_pll2_4x_recalc_rate 4 0 :=
  c7_view_ratio_amended 4 0 (by decide) (by decide) (by decide)

/-- Counterexample to C8 as stated: after a successful
`set_rate(24,576,000, 24,576,000)` on register 0, View 1x
`recalc_rate(24,576,000)` does not return 24,576,000. -/
theorem c8_counterexample :
    (sun4i_pll2_set_rate 24576000 24576000 0).1 = 0 ∧
    sun4i_pll2_1x_recalc_rate 24576000
      (sun4i_pll2_set_rate 24576000 24576000 0).2 ≠ 24576000 := by
  decide

/-- Claim C8 amended: starting from register 0,
`set_rate(24,576,000, 24,576,000)` succeeds committing N=86, P=21,
S=4, and the subsequent View 1x `recalc_rate(24,576,000)` returns
25,161,142 = ((24,576,000 * 86) / 21) / 4 under truncating integer
division. -/
theorem c8_end_to_end_amended :
    (sun4i_pll2_set_rate 24576000 24576000 0).1 = 0 ∧
    pll2_decode_n (sun4i_pll2_set_rate 24576000 24576000 0).2 = 86 ∧
    pll2_decode_prediv (sun4i_pll2_set_rate 24576000 24576000 0).2 = 21 ∧
    pll2_decode_postdiv (sun4i_pll2_set_rate 24576000 24576000 0).2 = 4 ∧
    sun4i_pll2_1x_recalc_rate 24576000
      (sun4i_pll2_set_rate 24576000 24576000 0).2 = 25161142 ∧
    24576000 * 86 / 21 / 4 = 25161142 := by
  decide

/-- Counterexample to C9 as stated: at the request 2^62 the stored
parent-rate suggestion `(r * 4) / 2` computed in the 64-bit rate type
wraps to 0 and is not `r * 2`. -/
theorem c9_counterexample :
    (sun4i_pll2_8x_round_rate 4611686018427387904).1 ≠
      4611686018427387904 * 2 := by
  decide

/-- Claim C9 amended: View 8x `round_rate` returns the request `r`
itself as achievable and stores the suggestion `(r * 4) / 2` computed
in the 64-bit rate type; that suggestion equals `r * 2` whenever
`r * 4` does not overflow, i.e. for r < 2^62. -/
theorem c9_view8x_round_amended (r : Nat) :
    (sun4i_pll2_8x_round_rate r).2 = r ∧
    (sun4i_pll2_8x_round_rate r).1 = r * 4 % ULONG_SIZE / 2 ∧
    (r < 2 ^ 62 → (sun4i_pll2_8x_round_rate r).1 = r * 2) := by
  refine ⟨rfl, rfl, fun h => ?_⟩
  show r * 4 % ULONG_SIZE / 2 = r * 2
  have hU : ULONG_SIZE = 18446744073709551616 := by norm_num [ULONG_SIZE]
  have h62 : r < 4611686018427387904 := by norm_num at h; exact h
  rw [hU, Nat.mod_eq_of_lt (by omega)]
  omega

/-- Witness for the amended C9 at a small request. -/
theorem c9_witness :
    (sun4i_pll2_8x_round_rate 3).2 = 3 ∧
    (sun4i_pll2_8x_round_rate 3).1 = 3 * 2 :=
  ⟨(c9_view8x_round_amended 3).1, (c9_view8x_round_amended 3).2.2 (by norm_num)⟩

/-- Claim C10: every recalc_rate and round_rate operation, on every
view and input, leaves the register unchanged (they at most read it);
`set_rate` is the only one of the operations that ever writes the
register (witnessed by a successful commit changing it). -/
theorem c10_register_read_only (p r reg : Nat) :
    (sun4i_pll2_1x_recalc_rate_st p reg).2 = reg ∧
    (sun4i_pll2_2x_recalc_rate_st p reg).2 = reg ∧
    (sun4i_pll2_4x_recalc_rate_st p reg).2 = reg ∧
    (sun4i_pll2_8x_recalc_rate_st p reg).2 = reg ∧
    (sun4i_pll2_1x_round_rate_st r reg).2 = reg ∧
    (sun4i_pll2_2x_round_rate_st r reg).2 = reg ∧
    (sun4i_pll2_4x_round_rate_st r reg).2 = reg ∧
    (sun4i_pll2_8x_round_rate_st r reg).2 = reg ∧
    (sun4i_pll2_set_rate 22579200 24576000 0).2 ≠ 0 :=
  ⟨rfl, rfl, rfl, rfl, rfl, rfl, rfl, rfl, by decide⟩
